import Mathlib

/-!
A shallow embedding of the block-level layout module `weasy/layout/blocks.py`
of WeasyPrint, together with proofs about its width constraint solver and its
flow/fragmentation engine.

Lengths are modelled as rationals.  A style value that may be the keyword
`auto` is modelled by `AutoLen`; style declarations that may also be
percentages are modelled by `Dimension`.  Python exceptions (`TypeError` for
an unhandled box variant, `NotImplementedError` for unsupported overflow) are
modelled by `Except LayoutError`.  The in-place mutation of the input box is
modelled by returning the updated input `BoxData` next to the ordinary result.
Recursion over the box tree is implemented by structural recursion on an
explicit bound (`Box.fuel`), which over-approximates the number of nested
layout calls, so that every function computes by kernel reduction.
-/

namespace Weasy

inductive Direction where
  | ltr
  | rtl
deriving DecidableEq, Repr

inductive Overflow where
  | visible
  | hidden
  | scroll
  | autoOverflow
deriving DecidableEq, Repr

/-- A CSS style value: the keyword `auto`, an absolute length, or a
percentage. -/
inductive Dimension where
  | auto
  | length (v : ℚ)
  | percent (p : ℚ)
deriving DecidableEq, Repr

/-- A used value on a box: either the sentinel `auto` or a resolved length. -/
inductive AutoLen where
  | auto
  | len (v : ℚ)
deriving DecidableEq, Repr

/-- The numeric value of a used value, reading `auto` as zero (this mirrors the
source pattern of adding only the non-auto margins into a running total). -/
def valOrZero : AutoLen → ℚ
  | .auto => 0
  | .len v => v

/-- Replace `auto` by the length zero, as in `if margin == 'auto': margin = 0`. -/
def fixAuto : AutoLen → AutoLen
  | .auto => .len 0
  | .len v => .len v

structure Style where
  margin_left : Dimension
  margin_right : Dimension
  margin_top : Dimension
  margin_bottom : Dimension
  padding_left : Dimension
  padding_right : Dimension
  padding_top : Dimension
  padding_bottom : Dimension
  border_left_width : ℚ
  border_right_width : ℚ
  border_top_width : ℚ
  border_bottom_width : ℚ
  width : Dimension
  height : Dimension
  overflow : Overflow
  direction : Direction
deriving DecidableEq, Repr

/-- An outside list marker attached to a list-item box: its intrinsic text
width and, once the marker collaborator has run, its resolved horizontal
position. -/
structure Marker where
  text_width : ℚ
  position_x : Option ℚ
deriving DecidableEq, Repr

/-- The per-box record: the computed style, the absolute position assigned
during layout, the containing block size reported by the containing-block
accessor, the direction of the parent (used for the over-constrained margin
rule), the normal-flow flag, an optional outside list marker, and the used
values of the box model fields. -/
structure BoxData where
  style : Style
  position_x : ℚ
  position_y : ℚ
  containing_width : ℚ
  containing_height : ℚ
  parent_direction : Direction
  in_normal_flow : Bool
  outside_list_marker : Option Marker
  margin_left : AutoLen
  margin_right : AutoLen
  margin_top : AutoLen
  margin_bottom : AutoLen
  padding_left : ℚ
  padding_right : ℚ
  padding_top : ℚ
  padding_bottom : ℚ
  border_left_width : ℚ
  border_right_width : ℚ
  border_top_width : ℚ
  border_bottom_width : ℚ
  width : AutoLen
  height : AutoLen
deriving DecidableEq, Repr

/-- The box tree handed to layout.  A `blockBox` holds block-level or line
children; a `lineBox` stands for the inline content of a block, abstracted as
the list of the heights of the line fragments it produces; a `replacedBox`
wraps intrinsic media with an intrinsic width and height; `otherBox` is any
box variant the dispatcher does not handle. -/
inductive Box where
  | blockBox (data : BoxData) (children : List Box)
  | lineBox (data : BoxData) (fragments : List ℚ)
  | replacedBox (data : BoxData) (intrinsic_width intrinsic_height : ℚ)
  | otherBox (data : BoxData)
deriving Repr

def Box.data : Box → BoxData
  | .blockBox d _ => d
  | .lineBox d _ => d
  | .replacedBox d _ _ => d
  | .otherBox d => d

/-- The resume cursor (`skip_stack` in the source): a pair of a child index
and an optional nested cursor, the nested cursor being either a deeper
block-level cursor or an inline-content cursor (whose index then denotes the
next line fragment). -/
inductive Skip where
  | mk (index : Nat) (inner : Option Skip)
deriving Repr

/-- The two failure kinds of the module: `TypeError` on an unhandled box
variant and `NotImplementedError` on unsupported overflow. -/
inductive LayoutError where
  | unsupportedVariant
  | unsupportedOverflow
deriving DecidableEq, Repr

/-- A finished (output) box: either a laid-out line fragment or a block-level
box with its children. -/
inductive LaidBox where
  | line (position_y height : ℚ)
  | box (data : BoxData) (children : List LaidBox)
deriving Repr

/-- A line fragment as returned by the line-fragment producer. -/
structure Line where
  position_y : ℚ
  height : ℚ
deriving DecidableEq, Repr

/-- The state returned by the inner line loop of `block_level_height`: the
lines placed so far, the final vertical cursor, the final value of the
loop-carried `skip_stack` variable, whether the loop stopped on a page break,
and the inline cursor to resume from in that case. -/
structure LineLoopOut where
  lines : List LaidBox
  position_y : ℚ
  skip_stack : Option Skip
  is_page_break : Bool
  resume_at : Option Skip
deriving Repr

/-- The result of the child iteration of `block_level_height`: the children
placed on this page, the final vertical cursor, and the resume cursor (none
when the loop exhausted all children). -/
structure FlowOut where
  children : List LaidBox
  position_y : ℚ
  resume_at : Option Skip
deriving Repr

/-- Modelled from the spec: percentage resolution of a single style value
against its base length (§6 percentage resolver, `weasy/layout/percentages.py`
is not under src/). -/
def resolve_dim (base : ℚ) : Dimension → AutoLen
  | .auto => .auto
  | .length v => .len v
  | .percent p => .len (p * base / 100)

/-- Modelled from the spec: the percentage-resolver collaborator
(`resolve_percentages`, §6; `weasy/layout/percentages.py` is not under src/).
It rewrites every percentage style field to an absolute length and installs
the used values of the box model fields; margins, paddings and width resolve
against the containing block width, height against its height; a padding
keyword that is not a length resolves to zero.  It is idempotent. -/
def resolve_percentages (b : BoxData) : BoxData :=
  { b with
    margin_left := resolve_dim b.containing_width b.style.margin_left
    margin_right := resolve_dim b.containing_width b.style.margin_right
    margin_top := resolve_dim b.containing_width b.style.margin_top
    margin_bottom := resolve_dim b.containing_width b.style.margin_bottom
    padding_left := valOrZero (resolve_dim b.containing_width b.style.padding_left)
    padding_right := valOrZero (resolve_dim b.containing_width b.style.padding_right)
    padding_top := valOrZero (resolve_dim b.containing_width b.style.padding_top)
    padding_bottom := valOrZero (resolve_dim b.containing_width b.style.padding_bottom)
    border_left_width := b.style.border_left_width
    border_right_width := b.style.border_right_width
    border_top_width := b.style.border_top_width
    border_bottom_width := b.style.border_bottom_width
    width := resolve_dim b.containing_width b.style.width
    height := resolve_dim b.containing_height b.style.height }

/-- Modelled from the spec: the box geometry accessor `content_box_x` of the
formatting-structure module (not under src/): the horizontal position of the
content area, i.e. the box position plus left margin, border and padding. -/
def content_box_x (b : BoxData) : ℚ :=
  b.position_x + valOrZero b.margin_left + b.border_left_width + b.padding_left

/-- Modelled from the spec: the box geometry accessor `content_box_y` of the
formatting-structure module (not under src/): the vertical position of the
content area, i.e. the box position plus top margin, border and padding. -/
def content_box_y (b : BoxData) : ℚ :=
  b.position_y + valOrZero b.margin_top + b.border_top_width + b.padding_top

/-- Modelled from the spec: the list-marker layout collaborator (§6,
`weasy/layout/markers.py` is not under src/): a block box is returned with its
outside marker geometry attached (here: the marker is positioned at the
content edge, shifted left by its text width), or unchanged when no marker
applies. -/
def list_marker_layout (b : BoxData) : BoxData :=
  match b.outside_list_marker with
  | none => b
  | some m =>
      let laid : Marker := { m with position_x := some (content_box_x b - m.text_width) }
      { b with outside_list_marker := some laid }

/-- Modelled from the spec: the replaced-content intrinsic width rule (§6,
`weasy/layout/inlines.py` is not under src/): resolve the width from the
intrinsic size when it is unspecified, guaranteeing a non-auto width. -/
def replaced_box_width (intrinsic_width : ℚ) (b : BoxData) : BoxData :=
  { b with width :=
      match b.width with
      | .auto => .len intrinsic_width
      | .len v => .len v }

/-- Modelled from the spec: the replaced-content intrinsic height rule (§6,
`weasy/layout/inlines.py` is not under src/): resolve the height from the
intrinsic size when it is unspecified, guaranteeing a non-auto height. -/
def replaced_box_height (intrinsic_height : ℚ) (b : BoxData) : BoxData :=
  { b with height :=
      match b.height with
      | .auto => .len intrinsic_height
      | .len v => .len v }

/-- Modelled from the spec: the line-fragment producer `get_next_linebox`
(§6, `weasy/layout/inlines.py` is not under src/).  The inline content of a
line box is abstracted as the list of its fragment heights and the inline
resume cursor as the index of the next fragment (no cursor meaning index 0).
The producer returns the fragment at the cursor, positioned at the requested
vertical offset, together with the cursor of the following fragment — none
when that fragment was the last — and none when the content is exhausted.  It
is restartable from any previously returned cursor. -/
def get_next_linebox (fragments : List ℚ) (position_y : ℚ) (skip_stack : Option Skip) :
    Option Line × Option Skip :=
  let k : Nat :=
    match skip_stack with
    | none => 0
    | some (.mk i _) => i
  match fragments.get? k with
  | none => (none, none)
  | some h =>
      (some { position_y := position_y, height := h },
        if k + 1 < fragments.length then some (.mk (k + 1) none) else none)

/-- The width constraint solver `block_level_width` of `blocks.py`: set the
used width and horizontal margins of `b` so that margins, borders, paddings
and width add up to the containing block width. -/
def block_level_width (b : BoxData) : BoxData :=
  let cb_width := b.containing_width
  let paddings_plus_borders :=
    b.padding_left + b.padding_right + b.border_left_width + b.border_right_width
  -- step 1: when the width is fixed and the non-auto parts already overflow
  -- the containing block, auto margins are forced to zero
  let ml1 : AutoLen :=
    match b.width with
    | .len w =>
        if cb_width <
            paddings_plus_borders + w + valOrZero b.margin_left + valOrZero b.margin_right
        then fixAuto b.margin_left else b.margin_left
    | .auto => b.margin_left
  let mr1 : AutoLen :=
    match b.width with
    | .len w =>
        if cb_width <
            paddings_plus_borders + w + valOrZero b.margin_left + valOrZero b.margin_right
        then fixAuto b.margin_right else b.margin_right
    | .auto => b.margin_right
  -- step 2: all three of width, margin-left, margin-right fixed: the equation
  -- is over-constrained, recompute the line-end margin
  let m2 : AutoLen × AutoLen :=
    match b.width, ml1, mr1 with
    | .len w, .len l, .len r =>
        let margin_sum := cb_width - paddings_plus_borders - w
        match b.parent_direction with
        | .ltr => (.len l, .len (margin_sum - l))
        | .rtl => (.len (margin_sum - r), .len r)
    | _, _, _ => (ml1, mr1)
  -- step 3: auto width: zero the auto margins, width fills the rest
  let s3 : AutoLen × AutoLen × ℚ :=
    match b.width with
    | .auto =>
        let l := valOrZero m2.1
        let r := valOrZero m2.2
        (.len l, .len r, cb_width - (paddings_plus_borders + l + r))
    | .len w => (m2.1, m2.2, w)
  -- step 4: distribute the remaining slack over the still-auto margins
  let margin_sum := cb_width - paddings_plus_borders - s3.2.2
  let final : AutoLen × AutoLen :=
    match s3.1, s3.2.1 with
    | .auto, .auto => (.len (margin_sum / 2), .len (margin_sum / 2))
    | .auto, .len r => (.len (margin_sum - r), .len r)
    | .len l, .auto => (.len l, .len (margin_sum - l))
    | .len l, .len r => (.len l, .len r)
  { b with margin_left := final.1, margin_right := final.2, width := .len s3.2.2 }

/-- The replaced-box path `block_replaced_box_layout` of `blocks.py`: resolve
percentages, apply the intrinsic width rule, run the width solver, apply the
intrinsic height rule, and set auto vertical margins to zero. -/
def block_replaced_box_layout (intrinsic_width intrinsic_height : ℚ) (b : BoxData) : BoxData :=
  let d := replaced_box_height intrinsic_height
    (block_level_width (replaced_box_width intrinsic_width (resolve_percentages b)))
  { d with margin_top := fixAuto d.margin_top, margin_bottom := fixAuto d.margin_bottom }

/-- The outer margin height of a finished box (`margin_height()` in the
source), used to advance the vertical cursor past a block-level child. -/
def LaidBox.margin_height : LaidBox → ℚ
  | .line _ height => height
  | .box d _ =>
      valOrZero d.margin_top + d.border_top_width + d.padding_top + valOrZero d.height
        + d.padding_bottom + d.border_bottom_width + valOrZero d.margin_bottom

/-- The inner `while 1` loop of `block_level_height` over the line fragments
of one line box.  The loop state is the vertical cursor, the loop-carried
`skip_stack` variable and the `first` flag; the fuel bound
`fragments.length + 1` dominates the number of iterations because the inline
cursor index strictly increases. -/
def line_loop (fragments : List ℚ) (max_position_y : ℚ) :
    Nat → ℚ → Option Skip → Bool → LineLoopOut
  | 0, position_y, skip_stack, _ =>
      { lines := [], position_y := position_y, skip_stack := skip_stack,
        is_page_break := false, resume_at := none }
  | fuel + 1, position_y, skip_stack, first =>
    match get_next_linebox fragments position_y skip_stack with
    | (none, _) =>
        { lines := [], position_y := position_y, skip_stack := skip_stack,
          is_page_break := false, resume_at := none }
    | (some line, resume_at) =>
      let new_position_y := position_y + line.height
      if max_position_y < new_position_y ∧ first = false then
        { lines := [], position_y := position_y, skip_stack := skip_stack,
          is_page_break := true, resume_at := skip_stack }
      else
        match resume_at with
        | none =>
            { lines := [.line line.position_y line.height], position_y := new_position_y,
              skip_stack := skip_stack, is_page_break := false, resume_at := none }
        | some r =>
            let rest := line_loop fragments max_position_y fuel new_position_y (some r) false
            { rest with lines := .line line.position_y line.height :: rest.lines }

mutual

/-- The dispatcher `block_level_layout` of `blocks.py` (fuelled form): write
the assigned position onto the box, then dispatch on the box variant.  The
first component of the result is the input box record after the call's
in-place mutations; the second is the laid-out box and the next resume
cursor, or the propagated failure. -/
def block_level_layoutF : Nat → ℚ → ℚ → Box → ℚ → Option Skip →
    BoxData × Except LayoutError (LaidBox × Option Skip)
  | 0, _, _, box, _, _ => (Box.data box, .error .unsupportedVariant)
  | fuel + 1, px, py, box, max_position_y, skip_stack =>
    match box with
    | .blockBox data children =>
        block_box_layoutF fuel px py data children max_position_y skip_stack
    | .replacedBox data iw ih =>
        let d := block_replaced_box_layout iw ih { data with position_x := px, position_y := py }
        (d, .ok (.box d [], none))
    | .lineBox data _ =>
        ({ data with position_x := px, position_y := py }, .error .unsupportedVariant)
    | .otherBox data =>
        ({ data with position_x := px, position_y := py }, .error .unsupportedVariant)

/-- The block path `block_box_layout` of `blocks.py` (fuelled form): resolve
percentages, run the width solver, lay out the list marker, then compute the
height and fragment the children. -/
def block_box_layoutF : Nat → ℚ → ℚ → BoxData → List Box → ℚ → Option Skip →
    BoxData × Except LayoutError (LaidBox × Option Skip)
  | 0, _, _, data, _, _, _ => (data, .error .unsupportedVariant)
  | fuel + 1, px, py, data, children, max_position_y, skip_stack =>
    let d := list_marker_layout (block_level_width (resolve_percentages
      { data with position_x := px, position_y := py }))
    block_level_heightF fuel d children max_position_y skip_stack

/-- The flow/fragmentation engine `block_level_height` of `blocks.py`
(fuelled form): refuse unsupported overflow, zero auto vertical margins, copy
the box into a fresh output box, decode the resume cursor, iterate the
children, give the output box its content-driven height when the height is
auto, and clear the list marker on the input box. -/
def block_level_heightF : Nat → BoxData → List Box → ℚ → Option Skip →
    BoxData × Except LayoutError (LaidBox × Option Skip)
  | 0, data, _, _, _ => (data, .error .unsupportedVariant)
  | fuel + 1, data, children, max_position_y, skip_stack =>
    if data.style.overflow ≠ Overflow.visible then
      (data, .error .unsupportedOverflow)
    else
      let d := { data with margin_top := fixAuto data.margin_top,
                           margin_bottom := fixAuto data.margin_bottom }
      let position_x := content_box_x d
      let position_y := content_box_y d
      let start : Nat × Option Skip :=
        match skip_stack with
        | none => (0, none)
        | some (.mk i s) => (i, s)
      match layout_childrenF fuel children 0 start.1 position_x position_y
          max_position_y start.2 with
      | .error e => (d, .error e)
      | .ok flow =>
          let new_height : AutoLen :=
            match d.height with
            | .auto => .len (flow.position_y - position_y)
            | .len v => .len v
          ({ d with outside_list_marker := none },
            .ok (.box { d with height := new_height } flow.children, flow.resume_at))

/-- The child iteration of `block_level_height` (fuelled form): skip the first
`skip` children, skip children out of normal flow, drive the line loop for a
line box child (threading the loop-carried `skip_stack` on to the following
siblings exactly as the source does), and recurse into the dispatcher for any
other child, breaking with a wrapped resume cursor when a page break is
requested. -/
def layout_childrenF : Nat → List Box → Nat → Nat → ℚ → ℚ → ℚ → Option Skip →
    Except LayoutError FlowOut
  | 0, _, _, _, _, _, _, _ => .error .unsupportedVariant
  | fuel + 1, children, index, skip, position_x, position_y, max_position_y, skip_stack =>
    match children with
    | [] => .ok { children := [], position_y := position_y, resume_at := none }
    | child :: rest =>
      if index < skip then
        layout_childrenF fuel rest (index + 1) skip position_x position_y
          max_position_y skip_stack
      else if (Box.data child).in_normal_flow = false then
        layout_childrenF fuel rest (index + 1) skip position_x position_y
          max_position_y skip_stack
      else
        match child with
        | .lineBox _ fragments =>
          let out := line_loop fragments max_position_y (fragments.length + 1)
            position_y skip_stack true
          if out.is_page_break then
            .ok { children := out.lines, position_y := out.position_y,
                  resume_at := some (.mk index out.resume_at) }
          else
            match layout_childrenF fuel rest (index + 1) skip position_x out.position_y
                max_position_y out.skip_stack with
            | .error e => .error e
            | .ok flow => .ok { flow with children := out.lines ++ flow.children }
        | _ =>
          match block_level_layoutF fuel position_x position_y child
              max_position_y skip_stack with
          | (_, .error e) => .error e
          | (_, .ok (new_child, resume_at)) =>
            let new_position_y := position_y + LaidBox.margin_height new_child
            match resume_at with
            | some r =>
              .ok { children := [new_child], position_y := new_position_y,
                    resume_at := some (.mk index (some r)) }
            | none =>
              match layout_childrenF fuel rest (index + 1) skip position_x new_position_y
                  max_position_y none with
              | .error e => .error e
              | .ok flow => .ok { flow with children := new_child :: flow.children }

end

mutual

/-- A fuel bound dominating the number of nested fuelled calls needed to lay
out a box. -/
def Box.fuel : Box → Nat
  | .blockBox _ children => fuelList children + 3
  | .lineBox _ _ => 1
  | .replacedBox _ _ _ => 1
  | .otherBox _ => 1

/-- A fuel bound dominating the number of fuelled calls needed by the child
iteration over a list of boxes. -/
def fuelList : List Box → Nat
  | [] => 1
  | c :: rest => fuelList rest + Box.fuel c + 1

end

/-- The dispatcher `block_level_layout` of `blocks.py`: lay out a block-level
box against the page bottom `max_position_y`, resuming at `skip_stack`.
Returns the updated input box record together with the laid-out box and the
next resume cursor, or a failure. -/
def block_level_layout (box : Box) (max_position_y : ℚ) (skip_stack : Option Skip) :
    BoxData × Except LayoutError (LaidBox × Option Skip) :=
  block_level_layoutF (Box.fuel box) (Box.data box).position_x (Box.data box).position_y
    box max_position_y skip_stack

/-- The layout result alone (the second component of `block_level_layout`). -/
def layout_result (box : Box) (max_position_y : ℚ) (skip_stack : Option Skip) :
    Except LayoutError (LaidBox × Option Skip) :=
  (block_level_layout box max_position_y skip_stack).2

/-- The input box record after a layout call (the first component of
`block_level_layout`, i.e. the in-place mutations of the source). -/
def updated_input (box : Box) (max_position_y : ℚ) (skip_stack : Option Skip) : BoxData :=
  (block_level_layout box max_position_y skip_stack).1

/-- The children of a successfully laid-out block box, empty otherwise. -/
def ok_children : Except LayoutError (LaidBox × Option Skip) → List LaidBox
  | .ok (.box _ children, _) => children
  | _ => []

/-- The data record of a successfully laid-out block box. -/
def ok_data : Except LayoutError (LaidBox × Option Skip) → Option BoxData
  | .ok (.box d _, _) => some d
  | _ => none

/-- The resume cursor of a successful layout call. -/
def ok_resume : Except LayoutError (LaidBox × Option Skip) → Option Skip
  | .ok (_, r) => r
  | _ => none

def zeroStyle : Style :=
  { margin_left := .length 0, margin_right := .length 0,
    margin_top := .length 0, margin_bottom := .length 0,
    padding_left := .length 0, padding_right := .length 0,
    padding_top := .length 0, padding_bottom := .length 0,
    border_left_width := 0, border_right_width := 0,
    border_top_width := 0, border_bottom_width := 0,
    width := .auto, height := .auto, overflow := .visible, direction := .ltr }

def mkData (cw : ℚ) : BoxData :=
  { style := zeroStyle, position_x := 0, position_y := 0,
    containing_width := cw, containing_height := 0,
    parent_direction := .ltr, in_normal_flow := true, outside_list_marker := none,
    margin_left := .auto, margin_right := .auto, margin_top := .auto, margin_bottom := .auto,
    padding_left := 0, padding_right := 0, padding_top := 0, padding_bottom := 0,
    border_left_width := 0, border_right_width := 0,
    border_top_width := 0, border_bottom_width := 0,
    width := .auto, height := .auto }

def c4_box : BoxData :=
  { mkData 300 with width := .len 200, margin_left := .len 100, margin_right := .len 100 }

/-- A box whose fixed parts already overflow the containing block: width 120 and
margin-right 10 against a containing block of width 100, margin-left auto (it is
forced to zero by step 1 of the Geometry Solver, line-end margin then recomputed
to a negative length). -/
def c4_box2 : BoxData :=
  { mkData 100 with width := .len 120, margin_right := .len 10 }

/-- The input record with auto vertical margins zeroed (step 1 of the
flow/fragmentation engine). -/
def fix_vertical_margins (b : BoxData) : BoxData :=
  { b with margin_top := fixAuto b.margin_top, margin_bottom := fixAuto b.margin_bottom }

def c2_box : Box := .blockBox (mkData 100) [.lineBox (mkData 100) [20, 20, 20]]

def c7_inner : Box := .blockBox (mkData 100) [.lineBox (mkData 100) [5]]

def c7_box : Box := .blockBox (mkData 100) [.lineBox (mkData 100) [10, 10], c7_inner]

def c7_inner_out : BoxData :=
  { mkData 100 with
    position_y := 20
    margin_left := .len 0
    margin_right := .len 0
    margin_top := .len 0
    margin_bottom := .len 0
    width := .len 100
    height := .len 0 }

def c10_data : BoxData := { mkData 100 with style := { zeroStyle with overflow := .hidden } }

def c9_data : BoxData :=
  { mkData 100 with outside_list_marker := some { text_width := 5, position_x := none } }

def c9_fixed : BoxData :=
  { mkData 100 with
    margin_left := .len 0
    margin_right := .len 0
    margin_top := .len 0
    margin_bottom := .len 0
    width := .len 100 }

theorem valOrZero_fixAuto (x : AutoLen) : valOrZero (fixAuto x) = valOrZero x := by
  cases x <;> rfl

theorem resolve_percentages_style (b : BoxData) : (resolve_percentages b).style = b.style := rfl

theorem resolve_percentages_marker (b : BoxData) :
    (resolve_percentages b).outside_list_marker = b.outside_list_marker := rfl

theorem block_level_width_style (b : BoxData) : (block_level_width b).style = b.style := rfl

theorem block_level_width_marker (b : BoxData) :
    (block_level_width b).outside_list_marker = b.outside_list_marker := rfl

theorem block_level_width_position_y (b : BoxData) :
    (block_level_width b).position_y = b.position_y := rfl

theorem block_level_width_margin_top (b : BoxData) :
    (block_level_width b).margin_top = b.margin_top := rfl

theorem block_level_width_border_top (b : BoxData) :
    (block_level_width b).border_top_width = b.border_top_width := rfl

theorem block_level_width_padding_top (b : BoxData) :
    (block_level_width b).padding_top = b.padding_top := rfl

theorem list_marker_layout_fields (b : BoxData) :
    list_marker_layout b =
      { b with outside_list_marker := (list_marker_layout b).outside_list_marker } := by
  cases hm : b.outside_list_marker <;>
    · unfold list_marker_layout
      rw [hm]

theorem list_marker_layout_style (b : BoxData) : (list_marker_layout b).style = b.style := by
  cases hm : b.outside_list_marker <;> simp [list_marker_layout, hm]

theorem list_marker_layout_marker_isSome (b : BoxData) :
    (list_marker_layout b).outside_list_marker.isSome = b.outside_list_marker.isSome := by
  cases hm : b.outside_list_marker <;> simp [list_marker_layout, hm]

theorem list_marker_layout_marker_none (b : BoxData) (h : b.outside_list_marker = none) :
    (list_marker_layout b).outside_list_marker = none := by
  simp [list_marker_layout, h]

theorem block_level_width_sum (b : BoxData) :
    ∃ l w r : ℚ,
      (block_level_width b).margin_left = .len l ∧
      (block_level_width b).width = .len w ∧
      (block_level_width b).margin_right = .len r ∧
      l + (b.padding_left + b.padding_right + b.border_left_width + b.border_right_width)
        + w + r = b.containing_width := by
  rcases hw : b.width with _ | w <;>
    rcases hl : b.margin_left with _ | l <;>
      rcases hr : b.margin_right with _ | r <;>
        rcases hd : b.parent_direction <;>
          simp only [block_level_width, hw, hl, hr, hd, valOrZero, fixAuto] <;>
            first
              | (split_ifs <;> exact ⟨_, _, _, rfl, rfl, rfl, by ring⟩)
              | exact ⟨_, _, _, rfl, rfl, rfl, by ring⟩

theorem block_level_layout_block (d : BoxData) (children : List Box) (maxY : ℚ)
    (ss : Option Skip) :
    block_level_layout (.blockBox d children) maxY ss =
      block_level_heightF (fuelList children + 1)
        (list_marker_layout (block_level_width (resolve_percentages d))) children maxY ss := rfl

theorem block_level_heightF_overflow (fuel : Nat) (d : BoxData) (children : List Box)
    (maxY : ℚ) (ss : Option Skip) (hov : d.style.overflow ≠ Overflow.visible) :
    block_level_heightF (fuel + 1) d children maxY ss = (d, .error .unsupportedOverflow) := by
  unfold block_level_heightF
  rw [if_pos hov]

theorem block_level_heightF_cases (fuel : Nat) (d : BoxData) (children : List Box)
    (maxY : ℚ) (ss : Option Skip) (hov : d.style.overflow = Overflow.visible) :
    (∃ e : LayoutError,
      block_level_heightF (fuel + 1) d children maxY ss = (fix_vertical_margins d, .error e)) ∨
    (∃ flow : FlowOut,
      block_level_heightF (fuel + 1) d children maxY ss =
        ({ fix_vertical_margins d with outside_list_marker := none },
          .ok (.box
            ({ fix_vertical_margins d with height :=
              match d.height with
              | .auto => .len (flow.position_y - content_box_y (fix_vertical_margins d))
              | .len v => .len v })
            flow.children, flow.resume_at))) := by
  have decmk : ∀ s : Option Skip, ∃ i : Nat, ∃ inner : Option Skip,
      (match s with | none => ((0 : Nat), (none : Option Skip)) | some (.mk i s) => (i, s))
        = (i, inner) := by
    rintro (_ | ⟨i, inner⟩)
    · exact ⟨0, none, rfl⟩
    · exact ⟨i, inner, rfl⟩
  obtain ⟨i, inner, hdec⟩ := decmk ss
  have body : block_level_heightF (fuel + 1) d children maxY ss =
      (match layout_childrenF fuel children 0 i
          (content_box_x (fix_vertical_margins d)) (content_box_y (fix_vertical_margins d))
          maxY inner with
       | .error e => (fix_vertical_margins d, .error e)
       | .ok flow => ({ fix_vertical_margins d with outside_list_marker := none },
           .ok (.box
             ({ fix_vertical_margins d with height :=
               match d.height with
               | .auto => .len (flow.position_y - content_box_y (fix_vertical_margins d))
               | .len v => .len v })
             flow.children, flow.resume_at))) := by
    cases ss with
    | none =>
      cases hdec
      unfold block_level_heightF
      rw [if_neg (by simp [hov])]
      rfl
    | some s =>
      cases s with
      | mk j inner2 =>
        cases hdec
        unfold block_level_heightF
        rw [if_neg (by simp [hov])]
        rfl
  rw [body]
  rcases layout_childrenF fuel children 0 i
      (content_box_x (fix_vertical_margins d)) (content_box_y (fix_vertical_margins d))
      maxY inner with e | flow
  · exact .inl ⟨e, rfl⟩
  · exact .inr ⟨flow, rfl⟩

theorem block_level_heightF_body (fuel : Nat) (d : BoxData) (children : List Box)
    (maxY : ℚ) (hov : d.style.overflow = Overflow.visible) :
    block_level_heightF (fuel + 1) d children maxY none =
      (match layout_childrenF fuel children 0 0
          (content_box_x (fix_vertical_margins d)) (content_box_y (fix_vertical_margins d))
          maxY none with
       | .error e => (fix_vertical_margins d, .error e)
       | .ok flow => ({ fix_vertical_margins d with outside_list_marker := none },
           .ok (.box
             ({ fix_vertical_margins d with height :=
               match d.height with
               | .auto => .len (flow.position_y - content_box_y (fix_vertical_margins d))
               | .len v => .len v })
             flow.children, flow.resume_at))) := by
  unfold block_level_heightF
  rw [if_neg (by simp [hov])]
  rfl

theorem line_loop_cons_first (frags : List ℚ) (maxY y hfrag : ℚ) (fuel : Nat)
    (hget : frags.get? 0 = some hfrag) :
    line_loop frags maxY (fuel + 1) y none true =
      (match (if 0 + 1 < frags.length then some (Skip.mk (0 + 1) none) else none) with
       | none =>
           { lines := [.line y hfrag], position_y := y + hfrag, skip_stack := none,
             is_page_break := false, resume_at := none }
       | some r =>
           { line_loop frags maxY fuel (y + hfrag) (some r) false with
             lines := .line y hfrag ::
               (line_loop frags maxY fuel (y + hfrag) (some r) false).lines }) := by
  conv_lhs => unfold line_loop get_next_linebox
  dsimp only
  rw [hget]
  dsimp only
  rw [if_neg (by simp)]

theorem line_loop_places_first (maxY y hfrag : ℚ) (rest : List ℚ) :
    ∃ tail : List LaidBox,
      (line_loop (hfrag :: rest) maxY ((hfrag :: rest).length + 1) y none true).lines
        = .line y hfrag :: tail := by
  rw [line_loop_cons_first (hfrag :: rest) maxY y hfrag ((hfrag :: rest).length) rfl]
  rcases hite : (if 0 + 1 < (hfrag :: rest).length then some (Skip.mk (0 + 1) none) else none)
    with _ | r
  · exact ⟨[], rfl⟩
  · exact ⟨_, rfl⟩

theorem layout_childrenF_single_line (ld : BoxData) (fragments : List ℚ)
    (px py maxY : ℚ) (ss : Option Skip) (hnf : ld.in_normal_flow = true) :
    layout_childrenF (fuelList [Box.lineBox ld fragments]) [.lineBox ld fragments]
        0 0 px py maxY ss =
      (if (line_loop fragments maxY (fragments.length + 1) py ss true).is_page_break = true then
        .ok { children := (line_loop fragments maxY (fragments.length + 1) py ss true).lines,
              position_y := (line_loop fragments maxY (fragments.length + 1) py ss true).position_y,
              resume_at := some (.mk 0
                (line_loop fragments maxY (fragments.length + 1) py ss true).resume_at) }
      else
        .ok { children := (line_loop fragments maxY (fragments.length + 1) py ss true).lines,
              position_y := (line_loop fragments maxY (fragments.length + 1) py ss true).position_y,
              resume_at := none }) := by
  have e1 : fuelList [Box.lineBox ld fragments] = 3 := rfl
  rw [e1]
  simp only [layout_childrenF, Box.data, hnf]
  simp

/-- C1: for every block box with a fixed containing-block width, zero padding and
zero border, and each of margin-left, margin-right and width independently a fixed
length or auto, the Geometry Solver `block_level_width` leaves all three fields
fixed to lengths whose sum equals the containing-block width exactly. -/
theorem c1_width_solver_fills_containing_block (b : BoxData)
    (hpl : b.padding_left = 0) (hpr : b.padding_right = 0)
    (hbl : b.border_left_width = 0) (hbr : b.border_right_width = 0) :
    ∃ l w r : ℚ,
      (block_level_width b).margin_left = .len l ∧
      (block_level_width b).width = .len w ∧
      (block_level_width b).margin_right = .len r ∧
      l + w + r = b.containing_width := by
  obtain ⟨l, w, r, h1, h2, h3, h4⟩ := block_level_width_sum b
  refine ⟨l, w, r, h1, h2, h3, ?_⟩
  rw [hpl, hpr, hbl, hbr] at h4
  linarith

theorem c1_width_solver_fills_containing_block_witness :
    ∃ l w r : ℚ,
      (block_level_width ({ mkData 1000 with margin_left := .len 50 })).margin_left = .len l ∧
      (block_level_width ({ mkData 1000 with margin_left := .len 50 })).width = .len w ∧
      (block_level_width ({ mkData 1000 with margin_left := .len 50 })).margin_right = .len r ∧
      l + w + r = 1000 :=
  c1_width_solver_fills_containing_block _ rfl rfl rfl rfl

/-- C2: a block whose inline content yields three line fragments of height 20,
laid out with `max_position_y = 40` admitting exactly two full fragments from
offset 0, returns an output box with exactly two line children and a resume
cursor naming child 0 and fragment index 2; invoking layout again with that
cursor and a fresh page boundary returns the remaining fragment and a none
cursor. -/
theorem c2_three_fragments_break_after_two :
    ok_children (layout_result c2_box 40 none) = [.line 0 20, .line 20 20] ∧
    ok_resume (layout_result c2_box 40 none) = some (.mk 0 (some (.mk 2 none))) ∧
    ok_children (layout_result c2_box 40 (some (.mk 0 (some (.mk 2 none))))) = [.line 0 20] ∧
    ok_resume (layout_result c2_box 40 (some (.mk 0 (some (.mk 2 none))))) = none := by
  refine ⟨?_, ?_, ?_, ?_⟩ <;>
    norm_num [c2_box, layout_result, block_level_layout, mkData, zeroStyle, Box.fuel, fuelList,
    Box.data, block_level_layoutF, block_box_layoutF, block_level_heightF, layout_childrenF,
    line_loop, get_next_linebox, resolve_percentages, resolve_dim, block_level_width,
    list_marker_layout, valOrZero, fixAuto, content_box_x, content_box_y, ok_children,
    ok_resume, LaidBox.margin_height]

/-- C3: when the first line fragment of a block is taller than `max_position_y`
minus the content-area top, it is still placed as a child of the output box (the
overflow rejection applies only once a fragment has already been placed during
the call), so fragmentation succeeds rather than yielding an empty page or an
error, even though the output box may overflow the page area. -/
theorem c3_first_oversized_fragment_still_placed (d ld : BoxData) (h : ℚ) (rest : List ℚ)
    (max_position_y : ℚ)
    (hov : d.style.overflow = Overflow.visible)
    (hnf : ld.in_normal_flow = true)
    (_hbig : max_position_y < content_box_y (resolve_percentages d) + h) :
    ∃ (out_data : BoxData) (y : ℚ) (tail : List LaidBox) (resume : Option Skip),
      layout_result (.blockBox d [.lineBox ld (h :: rest)]) max_position_y none =
        .ok (.box out_data (.line y h :: tail), resume) ∧
      y = content_box_y (resolve_percentages d) := by
  have hc1 : (list_marker_layout (block_level_width (resolve_percentages d))).style.overflow
      = Overflow.visible := by
    rw [list_marker_layout_style, block_level_width_style, resolve_percentages_style]
    exact hov
  have hcy : content_box_y (fix_vertical_margins
      (list_marker_layout (block_level_width (resolve_percentages d))))
      = content_box_y (resolve_percentages d) := by
    rw [list_marker_layout_fields]
    simp [content_box_y, fix_vertical_margins, valOrZero_fixAuto,
      block_level_width_position_y, block_level_width_margin_top,
      block_level_width_border_top, block_level_width_padding_top]
  obtain ⟨tail, htail⟩ := line_loop_places_first max_position_y
    (content_box_y (fix_vertical_margins
      (list_marker_layout (block_level_width (resolve_percentages d))))) h rest
  rw [show layout_result (.blockBox d [.lineBox ld (h :: rest)]) max_position_y none
      = (block_level_heightF (fuelList [Box.lineBox ld (h :: rest)] + 1)
          (list_marker_layout (block_level_width (resolve_percentages d)))
          [.lineBox ld (h :: rest)] max_position_y none).2 from rfl]
  rw [block_level_heightF_body _ _ _ _ hc1]
  rw [layout_childrenF_single_line ld (h :: rest) _ _ max_position_y none hnf]
  split_ifs with hpb
  · dsimp only
    rw [htail]
    exact ⟨_, _, tail, _, rfl, hcy⟩
  · dsimp only
    rw [htail]
    exact ⟨_, _, tail, _, rfl, hcy⟩

theorem c3_first_oversized_fragment_still_placed_witness :
    ∃ (out_data : BoxData) (y : ℚ) (tail : List LaidBox) (resume : Option Skip),
      layout_result (.blockBox (mkData 100) [.lineBox (mkData 100) [50]]) 30 none =
        .ok (.box out_data (.line y 50 :: tail), resume) ∧
      y = content_box_y (resolve_percentages (mkData 100)) :=
  c3_first_oversized_fragment_still_placed (mkData 100) (mkData 100) 50 [] 30 rfl rfl
    (by norm_num [content_box_y, resolve_percentages, resolve_dim, mkData, zeroStyle, valOrZero])

/-- C4: whenever width, margin-left and margin-right are all non-auto after
step 1 of the Geometry Solver — fixed at input, or auto margins forced to zero
by the step-1 overflow test — the solver recomputes the margin on the line-end
side (right margin in left-to-right direction, left margin in right-to-left
direction) as the containing-block width minus paddings, borders, width and the
other margin, discarding any specified value; the witness shows the
over-determined example 300/200/100/100 ending with margin-right 0 and sum 300,
and the forced-zero example 100/120/auto/10 ending with margin-right -20. -/
theorem c4_over_constrained_recomputes_end_margin (b : BoxData) (w l r : ℚ) :
    -- all three fixed at input
    (b.width = .len w → b.margin_left = .len l → b.margin_right = .len r →
      (b.parent_direction = .ltr →
        (block_level_width b).margin_left = .len l ∧
        (block_level_width b).margin_right = .len (b.containing_width - (b.padding_left + b.padding_right + b.border_left_width + b.border_right_width) - w - l)) ∧
      (b.parent_direction = .rtl →
        (block_level_width b).margin_right = .len r ∧
        (block_level_width b).margin_left = .len (b.containing_width - (b.padding_left + b.padding_right + b.border_left_width + b.border_right_width) - w - r))) ∧
    -- left margin auto at input but forced to zero by step 1
    (b.width = .len w → b.margin_left = .auto → b.margin_right = .len r →
      b.containing_width < b.padding_left + b.padding_right + b.border_left_width + b.border_right_width + w + r →
      (b.parent_direction = .ltr →
        (block_level_width b).margin_left = .len 0 ∧
        (block_level_width b).margin_right = .len (b.containing_width - (b.padding_left + b.padding_right + b.border_left_width + b.border_right_width) - w)) ∧
      (b.parent_direction = .rtl →
        (block_level_width b).margin_right = .len r ∧
        (block_level_width b).margin_left = .len (b.containing_width - (b.padding_left + b.padding_right + b.border_left_width + b.border_right_width) - w - r))) ∧
    -- right margin auto at input but forced to zero by step 1
    (b.width = .len w → b.margin_left = .len l → b.margin_right = .auto →
      b.containing_width < b.padding_left + b.padding_right + b.border_left_width + b.border_right_width + w + l →
      (b.parent_direction = .ltr →
        (block_level_width b).margin_left = .len l ∧
        (block_level_width b).margin_right = .len (b.containing_width - (b.padding_left + b.padding_right + b.border_left_width + b.border_right_width) - w - l)) ∧
      (b.parent_direction = .rtl →
        (block_level_width b).margin_right = .len 0 ∧
        (block_level_width b).margin_left = .len (b.containing_width - (b.padding_left + b.padding_right + b.border_left_width + b.border_right_width) - w))) ∧
    -- both margins auto at input but forced to zero by step 1
    (b.width = .len w → b.margin_left = .auto → b.margin_right = .auto →
      b.containing_width < b.padding_left + b.padding_right + b.border_left_width + b.border_right_width + w →
      (b.parent_direction = .ltr →
        (block_level_width b).margin_left = .len 0 ∧
        (block_level_width b).margin_right = .len (b.containing_width - (b.padding_left + b.padding_right + b.border_left_width + b.border_right_width) - w)) ∧
      (b.parent_direction = .rtl →
        (block_level_width b).margin_right = .len 0 ∧
        (block_level_width b).margin_left = .len (b.containing_width - (b.padding_left + b.padding_right + b.border_left_width + b.border_right_width) - w))) := by
  refine ⟨fun hw hl hr => ?_, fun hw hl hr hc => ?_, fun hw hl hr hc => ?_,
    fun hw hl hr hc => ?_⟩
  · constructor <;> intro hd <;>
      simp only [block_level_width, hw, hl, hr, hd, valOrZero, fixAuto, ite_self] <;>
        exact ⟨by trivial, by trivial⟩
  · constructor <;> intro hd <;>
      simp only [block_level_width, hw, hl, hr, hd, valOrZero, fixAuto, ite_self] <;>
        rw [if_pos (by linarith)] <;>
          exact ⟨by norm_num, by norm_num⟩
  · constructor <;> intro hd <;>
      simp only [block_level_width, hw, hl, hr, hd, valOrZero, fixAuto, ite_self] <;>
        rw [if_pos (by linarith)] <;>
          exact ⟨by norm_num, by norm_num⟩
  · constructor <;> intro hd <;>
      simp only [block_level_width, hw, hl, hr, hd, valOrZero, fixAuto, ite_self] <;>
        rw [if_pos (by linarith)] <;>
          exact ⟨by norm_num, by norm_num⟩

theorem c4_over_constrained_recomputes_end_margin_witness :
    (block_level_width c4_box).margin_right = .len 0 ∧
    (block_level_width c4_box).margin_left = .len 100 ∧
    (block_level_width c4_box).width = .len 200 ∧
    (100 : ℚ) + 200 + 0 = 300 ∧
    (block_level_width c4_box2).margin_left = .len 0 ∧
    (block_level_width c4_box2).margin_right = .len (-20) := by
  have h1 := ((c4_over_constrained_recomputes_end_margin c4_box 200 100 100).1
    rfl rfl rfl).1 rfl
  have h2 := ((c4_over_constrained_recomputes_end_margin c4_box2 120 0 10).2.1
    rfl rfl rfl (by norm_num [c4_box2, mkData])).1 rfl
  refine ⟨?_, h1.1, rfl, by norm_num, h2.1, ?_⟩
  · rw [h1.2]
    norm_num [c4_box, mkData]
  · rw [h2.2]
    norm_num [c4_box2, mkData]

/-- C5: when width is auto every auto margin is set to 0 and width is set to
exactly fill the remaining space; when width is fixed the remaining slack is
split evenly between two still-auto margins or absorbed entirely by a single
auto margin; the witness shows 1000/600/auto/auto giving 200 each. -/
theorem c5_auto_width_and_slack_distribution (b : BoxData) (w l : ℚ) :
    (b.width = .auto →
      (block_level_width b).margin_left = fixAuto b.margin_left ∧
      (block_level_width b).margin_right = fixAuto b.margin_right ∧
      (block_level_width b).width = .len (b.containing_width
        - (b.padding_left + b.padding_right + b.border_left_width + b.border_right_width
           + valOrZero b.margin_left + valOrZero b.margin_right))) ∧
    (b.width = .len w → b.margin_left = .auto → b.margin_right = .auto →
      b.padding_left + b.padding_right + b.border_left_width + b.border_right_width + w ≤ b.containing_width →
      (block_level_width b).margin_left = .len ((b.containing_width
        - (b.padding_left + b.padding_right + b.border_left_width + b.border_right_width) - w) / 2) ∧
      (block_level_width b).margin_right = .len ((b.containing_width
        - (b.padding_left + b.padding_right + b.border_left_width + b.border_right_width) - w) / 2)) ∧
    (b.width = .len w → b.margin_left = .len l → b.margin_right = .auto →
      b.padding_left + b.padding_right + b.border_left_width + b.border_right_width + w + l ≤ b.containing_width →
      (block_level_width b).margin_left = .len l ∧
      (block_level_width b).margin_right = .len (b.containing_width
        - (b.padding_left + b.padding_right + b.border_left_width + b.border_right_width) - w - l)) ∧
    (b.width = .len w → b.margin_left = .auto → b.margin_right = .len l →
      b.padding_left + b.padding_right + b.border_left_width + b.border_right_width + w + l ≤ b.containing_width →
      (block_level_width b).margin_right = .len l ∧
      (block_level_width b).margin_left = .len (b.containing_width
        - (b.padding_left + b.padding_right + b.border_left_width + b.border_right_width) - w - l)) := by
  refine ⟨fun hw => ?_, fun hw hl hr hle => ?_, fun hw hl hr hle => ?_, fun hw hl hr hle => ?_⟩
  · rcases hl : b.margin_left <;> rcases hr : b.margin_right <;>
      simp only [block_level_width, hw, hl, hr, valOrZero, fixAuto] <;>
        exact ⟨by trivial, by trivial, by trivial⟩
  · simp only [block_level_width, hw, hl, hr, valOrZero, fixAuto]
    rw [if_neg (by linarith)]
    exact ⟨by trivial, by trivial⟩
  · simp only [block_level_width, hw, hl, hr, valOrZero, fixAuto, ite_self]
    rw [if_neg (by linarith)]
    exact ⟨by trivial, by trivial⟩
  · simp only [block_level_width, hw, hl, hr, valOrZero, fixAuto, ite_self]
    rw [if_neg (by linarith)]
    exact ⟨by trivial, by trivial⟩

theorem c5_auto_width_and_slack_distribution_witness :
    (block_level_width ({ mkData 1000 with width := .len 600 })).margin_left = .len 200 ∧
    (block_level_width ({ mkData 1000 with width := .len 600 })).margin_right = .len 200 := by
  have h := (c5_auto_width_and_slack_distribution ({ mkData 1000 with width := .len 600 })
    600 0).2.1 rfl rfl rfl (by norm_num [mkData])
  constructor
  · rw [h.1]
    norm_num [mkData]
  · rw [h.2]
    norm_num [mkData]

/-- C7 (refuted by the code): entered with resume cursor (0, inline cursor 0),
the engine resumes the first line child, but the loop-carried `skip_stack`
variable is not reset after the line content is exhausted, so the later sibling
block is laid out with the stale inline cursor (1, none) instead of none: its
only child is skipped and its output box is empty — the first conjunct shows
the empty nested output, the second shows that the same nested block laid out
from its beginning yields one line of height 5. -/
theorem c7_stale_cursor_reaches_later_sibling :
    ok_children (layout_result c7_box 1000 (some (.mk 0 (some (.mk 0 none))))) =
      [.line 0 10, .line 10 10, .box c7_inner_out []] ∧
    ok_children (layout_result c7_inner 1000 none) = [.line 0 5] := by
  constructor <;>
    norm_num [c7_box, c7_inner, c7_inner_out, layout_result, block_level_layout, mkData, zeroStyle, Box.fuel, fuelList,
    Box.data, block_level_layoutF, block_box_layoutF, block_level_heightF, layout_childrenF,
    line_loop, get_next_linebox, resolve_percentages, resolve_dim, block_level_width,
    list_marker_layout, valOrZero, fixAuto, content_box_x, content_box_y, ok_children,
    ok_resume, LaidBox.margin_height]

/-- C8: block-level layout fails in exactly two ways: dispatching a box that is
neither a block box nor a block-level replaced box yields the unsupported-variant
failure; a block box whose overflow is not the fully-visible value yields the
unsupported-overflow failure whatever its children are; a nested unsupported
variant propagates uncaught and aborts the parent call; and every call returns
either a success or one of those two failures — no other failure (in particular
no arithmetic failure) occurs. -/
theorem c8_exactly_two_failure_modes :
    (∀ (d : BoxData) (fragments : List ℚ) (maxY : ℚ) (ss : Option Skip),
      layout_result (.lineBox d fragments) maxY ss = .error .unsupportedVariant) ∧
    (∀ (d : BoxData) (maxY : ℚ) (ss : Option Skip),
      layout_result (.otherBox d) maxY ss = .error .unsupportedVariant) ∧
    (∀ (d : BoxData) (children : List Box) (maxY : ℚ) (ss : Option Skip),
      d.style.overflow ≠ Overflow.visible →
      layout_result (.blockBox d children) maxY ss = .error .unsupportedOverflow) ∧
    (∀ (d od : BoxData) (rest : List Box) (maxY : ℚ),
      d.style.overflow = Overflow.visible → od.in_normal_flow = true →
      layout_result (.blockBox d (.otherBox od :: rest)) maxY none
        = .error .unsupportedVariant) ∧
    (∀ (box : Box) (maxY : ℚ) (ss : Option Skip),
      (∃ out resume, layout_result box maxY ss = .ok (out, resume)) ∨
      layout_result box maxY ss = .error .unsupportedVariant ∨
      layout_result box maxY ss = .error .unsupportedOverflow) := by
  refine ⟨fun d fragments maxY ss => rfl, fun d maxY ss => rfl, ?_, ?_, ?_⟩
  · intro d children maxY ss hov
    have hov3 : (list_marker_layout (block_level_width (resolve_percentages d))).style.overflow
        ≠ Overflow.visible := by
      rw [list_marker_layout_style, block_level_width_style, resolve_percentages_style]
      exact hov
    show (block_level_layout (.blockBox d children) maxY ss).2 = _
    rw [block_level_layout_block,
      block_level_heightF_overflow (fuelList children) _ children maxY ss hov3]
  · intro d od rest maxY hov hnf
    have hov3 : (list_marker_layout (block_level_width (resolve_percentages d))).style.overflow
        = Overflow.visible := by
      rw [list_marker_layout_style, block_level_width_style, resolve_percentages_style]
      exact hov
    show (block_level_layout (.blockBox d (.otherBox od :: rest)) maxY none).2 = _
    rw [block_level_layout_block]
    unfold block_level_heightF
    rw [if_neg (by simp [hov3])]
    simp only [layout_childrenF, block_level_layoutF, Box.data, hnf, Box.fuel, fuelList]
    norm_num
  · intro box maxY ss
    cases h : layout_result box maxY ss with
    | ok v => exact .inl ⟨v.1, v.2, rfl⟩
    | error e =>
      cases e with
      | unsupportedVariant => exact .inr (.inl rfl)
      | unsupportedOverflow => exact .inr (.inr rfl)

theorem c8_exactly_two_failure_modes_witness :
    layout_result (.otherBox (mkData 100)) 0 none = .error .unsupportedVariant ∧
    layout_result (.blockBox c10_data []) 0 none = .error .unsupportedOverflow :=
  ⟨c8_exactly_two_failure_modes.2.1 (mkData 100) 0 none,
   c8_exactly_two_failure_modes.2.2.1 c10_data [] 0 none (by decide)⟩

/-- C9: for a list-item block laid out across two successive calls (the second
resuming from the cursor of the first), the marker geometry appears on exactly
one of the two output boxes: each call preserves the marker on that call's
output box and clears the association on the input box. -/
theorem c9_marker_kept_on_first_page_only (d : BoxData) (children : List Box)
    (maxY1 maxY2 : ℚ) (ss1 : Option Skip) {out1 out2 : BoxData}
    {kids1 kids2 : List LaidBox} {r1 r2 : Option Skip}
    (hm : d.outside_list_marker.isSome = true)
    (hov : d.style.overflow = Overflow.visible)
    (h1 : layout_result (.blockBox d children) maxY1 ss1 = .ok (.box out1 kids1, r1))
    (h2 : layout_result (.blockBox (updated_input (.blockBox d children) maxY1 ss1) children)
            maxY2 r1 = .ok (.box out2 kids2, r2)) :
    out1.outside_list_marker.isSome = true ∧
    out2.outside_list_marker = none ∧
    (updated_input (.blockBox d children) maxY1 ss1).outside_list_marker = none := by
  have hc1 : (list_marker_layout (block_level_width (resolve_percentages d))).style.overflow
      = Overflow.visible := by
    rw [list_marker_layout_style, block_level_width_style, resolve_percentages_style]
    exact hov
  unfold layout_result at h1 h2
  rw [block_level_layout_block] at h1
  rcases block_level_heightF_cases (fuelList children)
      (list_marker_layout (block_level_width (resolve_percentages d))) children maxY1 ss1 hc1
    with ⟨e, he⟩ | ⟨flow, hf⟩
  · rw [he] at h1
    exact absurd h1 (by simp)
  · have hU : updated_input (.blockBox d children) maxY1 ss1 =
        { fix_vertical_margins (list_marker_layout (block_level_width (resolve_percentages d)))
          with outside_list_marker := none } := by
      unfold updated_input
      rw [block_level_layout_block, hf]
    rw [hf] at h1
    simp only [LaidBox.box.injEq, Prod.mk.injEq, Except.ok.injEq] at h1
    obtain ⟨⟨hout1, hkids1⟩, hr1⟩ := h1
    rw [hU, block_level_layout_block] at h2
    have hc2 : (list_marker_layout (block_level_width (resolve_percentages
        ({ fix_vertical_margins (list_marker_layout (block_level_width (resolve_percentages d)))
           with outside_list_marker := none })))).style.overflow = Overflow.visible := by
      rw [list_marker_layout_style, block_level_width_style, resolve_percentages_style]
      exact hc1
    rcases block_level_heightF_cases (fuelList children)
        (list_marker_layout (block_level_width (resolve_percentages
          ({ fix_vertical_margins (list_marker_layout (block_level_width (resolve_percentages d)))
             with outside_list_marker := none })))) children maxY2 r1 hc2
      with ⟨e2, he2⟩ | ⟨flow2, hf2⟩
    · rw [he2] at h2
      exact absurd h2 (by simp)
    · rw [hf2] at h2
      simp only [LaidBox.box.injEq, Prod.mk.injEq, Except.ok.injEq] at h2
      obtain ⟨⟨hout2, hkids2⟩, hr2⟩ := h2
      refine ⟨?_, ?_, ?_⟩
      · rw [← hout1]
        show (list_marker_layout
          (block_level_width (resolve_percentages d))).outside_list_marker.isSome = true
        rw [list_marker_layout_marker_isSome, block_level_width_marker,
          resolve_percentages_marker]
        exact hm
      · rw [← hout2]
        show (list_marker_layout (block_level_width (resolve_percentages
          ({ fix_vertical_margins (list_marker_layout (block_level_width (resolve_percentages d)))
             with outside_list_marker := none })))).outside_list_marker = none
        rw [list_marker_layout_marker_none]
        rw [block_level_width_marker, resolve_percentages_marker]
      · rw [hU]

theorem c9_marker_kept_on_first_page_only_witness :
    ({ c9_fixed with
       outside_list_marker := some { text_width := 5, position_x := some (-5) }
       height := .len 0 } : BoxData).outside_list_marker.isSome = true ∧
    ({ c9_fixed with height := .len 0 } : BoxData).outside_list_marker = none ∧
    (updated_input (.blockBox c9_data []) 40 none).outside_list_marker = none := by
  have h1 : layout_result (.blockBox c9_data []) 40 none =
      .ok (.box ({ c9_fixed with
        outside_list_marker := some { text_width := 5, position_x := some (-5) }
        height := .len 0 }) [], none) := by
    norm_num [c9_data, c9_fixed, layout_result, updated_input, block_level_layout, mkData, zeroStyle, Box.fuel, fuelList,
    Box.data, block_level_layoutF, block_box_layoutF, block_level_heightF, layout_childrenF,
    line_loop, get_next_linebox, resolve_percentages, resolve_dim, block_level_width,
    list_marker_layout, valOrZero, fixAuto, content_box_x, content_box_y,
    LaidBox.margin_height]
  have h2 : layout_result (.blockBox (updated_input (.blockBox c9_data []) 40 none) []) 40 none =
      .ok (.box ({ c9_fixed with height := .len 0 }) [], none) := by
    norm_num [c9_data, c9_fixed, layout_result, updated_input, block_level_layout, mkData, zeroStyle, Box.fuel, fuelList,
    Box.data, block_level_layoutF, block_box_layoutF, block_level_heightF, layout_childrenF,
    line_loop, get_next_linebox, resolve_percentages, resolve_dim, block_level_width,
    list_marker_layout, valOrZero, fixAuto, content_box_x, content_box_y,
    LaidBox.margin_height]
  exact c9_marker_kept_on_first_page_only c9_data [] 40 40 none rfl rfl h1 h2

/-- C10: when block box layout aborts with the unsupported-overflow failure, no
output box exists and no child has been laid out (the result is the same for
every children list), but the failure is not atomic with respect to the input
box: its percentage fields have been resolved, its width and horizontal margins
recomputed and written back, and list-marker layout has run; the vertical auto
margins, checked after the overflow test, remain untouched. -/
theorem c10_overflow_error_after_width_and_marker (d : BoxData) (children : List Box)
    (maxY : ℚ) (ss : Option Skip) (hov : d.style.overflow ≠ Overflow.visible) :
    block_level_layout (.blockBox d children) maxY ss =
      (list_marker_layout (block_level_width (resolve_percentages d)),
        .error .unsupportedOverflow) ∧
    (updated_input (.blockBox d children) maxY ss).margin_top
      = (resolve_percentages d).margin_top ∧
    (updated_input (.blockBox d children) maxY ss).margin_bottom
      = (resolve_percentages d).margin_bottom := by
  have hov3 : (list_marker_layout (block_level_width (resolve_percentages d))).style.overflow
      ≠ Overflow.visible := by
    rw [list_marker_layout_style, block_level_width_style, resolve_percentages_style]
    exact hov
  have hmain : block_level_layout (.blockBox d children) maxY ss =
      (list_marker_layout (block_level_width (resolve_percentages d)),
        .error .unsupportedOverflow) := by
    rw [block_level_layout_block]
    exact block_level_heightF_overflow (fuelList children) _ children maxY ss hov3
  refine ⟨hmain, ?_, ?_⟩
  · show (block_level_layout (.blockBox d children) maxY ss).1.margin_top = _
    rw [hmain, list_marker_layout_fields]
    rfl
  · show (block_level_layout (.blockBox d children) maxY ss).1.margin_bottom = _
    rw [hmain, list_marker_layout_fields]
    rfl

theorem c10_overflow_error_after_width_and_marker_witness :
    block_level_layout (.blockBox c10_data []) 0 none =
      (list_marker_layout (block_level_width (resolve_percentages c10_data)),
        .error .unsupportedOverflow) :=
  (c10_overflow_error_after_width_and_marker c10_data [] 0 none (by decide)).1

end Weasy
